import Mathlib

/-!
Shallow embedding of the BRWG water-quality dashboard (src/app.py).

Measurement values are modelled as `Option Rat`: `none` stands for SQL null
(and for pandas NaN after `pd.to_numeric`), `some v` for a stored number.
Record ids are natural numbers; the Python truthiness test
`if existing_id_local:` is modelled explicitly (None and 0 are falsy).
Remote-table fetches are modelled as `Except String` values: `Except.error`
stands for a raised exception (missing table, network failure), `Except.ok`
for the rows returned by the query.
-/

set_option autoImplicit false

namespace BRWG

/-- The seven numeric measurement parameters of a water-quality record. -/
inductive Param where
  | do_mg
  | do_sat
  | hardness
  | alkalinity
  | ph
  | temperature
  | flow
deriving DecidableEq, Repr

/-- A row of the `water_quality` table. -/
structure WQRecord where
  id : Nat
  site : String
  date : String
  dissolved_oxygen_mg : Option Rat
  dissolved_oxygen_sat : Option Rat
  hardness : Option Rat
  alkalinity : Option Rat
  ph : Option Rat
  temperature : Option Rat
  flow : Option Rat
  notes : Option String
  user_id : String
deriving DecidableEq, Repr

/-- The column of a record that holds a given parameter. -/
def record_field (r : WQRecord) : Param → Option Rat
  | .do_mg => r.dissolved_oxygen_mg
  | .do_sat => r.dissolved_oxygen_sat
  | .hardness => r.hardness
  | .alkalinity => r.alkalinity
  | .ph => r.ph
  | .temperature => r.temperature
  | .flow => r.flow

/-- The `data` dict staged by the entry form for confirmation
(`st.session_state .pending_wq_save .data` in app.py). -/
structure Payload where
  site : String
  date : String
  user_id : String
  notes : Option String
  dissolved_oxygen_mg : Option Rat
  dissolved_oxygen_sat : Option Rat
  hardness : Option Rat
  alkalinity : Option Rat
  ph : Option Rat
  temperature : Option Rat
  flow : Option Rat
deriving DecidableEq, Repr

/-- The column of a staged payload that holds a given parameter. -/
def payload_field (p : Payload) : Param → Option Rat
  | .do_mg => p.dissolved_oxygen_mg
  | .do_sat => p.dissolved_oxygen_sat
  | .hardness => p.hardness
  | .alkalinity => p.alkalinity
  | .ph => p.ph
  | .temperature => p.temperature
  | .flow => p.flow

/-- The state of the entry-form widgets at submission time: for each of the
seven numeric fields, the number shown by the numeric widget and the state of
the per-field N/A checkbox, plus the notes text area. -/
structure FormInput where
  do_mg_widget : Rat
  do_mg_na : Bool
  do_sat_widget : Rat
  do_sat_na : Bool
  hardness_widget : Rat
  hardness_na : Bool
  alkalinity_widget : Rat
  alkalinity_na : Bool
  ph_widget : Rat
  ph_na : Bool
  temp_widget : Rat
  temp_na : Bool
  flow_widget : Rat
  flow_na : Bool
  notes : String
deriving DecidableEq, Repr

/-- The N/A checkbox state for a given parameter. -/
def form_na (f : FormInput) : Param → Bool
  | .do_mg => f.do_mg_na
  | .do_sat => f.do_sat_na
  | .hardness => f.hardness_na
  | .alkalinity => f.alkalinity_na
  | .ph => f.ph_na
  | .temperature => f.temp_na
  | .flow => f.flow_na

/-- The numeric widget value for a given parameter. -/
def form_widget (f : FormInput) : Param → Rat
  | .do_mg => f.do_mg_widget
  | .do_sat => f.do_sat_widget
  | .hardness => f.hardness_widget
  | .alkalinity => f.alkalinity_widget
  | .ph => f.ph_widget
  | .temperature => f.temp_widget
  | .flow => f.flow_widget

/-- In app.py, each field X is set to None when its N/A checkbox is checked
(`if X_not_available: X = None`) and otherwise keeps the numeric widget value;
the payload then stores X unchanged (`data[X] = X if X is not None else None`). -/
def staged_value (na : Bool) (widget : Rat) : Option Rat :=
  if na then none else some widget

/-- The full-name to legacy-token map applied on submission
(`site_name_mapping` in the submit handler). -/
def full_to_db : List (String × String) :=
  [("Blue River at Silverthorne Pavilion- 196", "Site 1"),
   ("Snake River KSS- 52", "Site 2"),
   ("Swan River Reach A- 1007", "Site 3")]

/-- `db_site_name = site_name_mapping.get(selected_site, selected_site)`. -/
def site_name_to_db (s : String) : String :=
  match full_to_db.lookup s with
  | some t => t
  | none => s

/-- Building the staged payload from the form, as the submit handler does. -/
def build_payload (selected_site dateStr uid : String) (f : FormInput) : Payload :=
  { site := site_name_to_db selected_site
    date := dateStr
    user_id := uid
    notes := if f.notes == "" then none else some f.notes
    dissolved_oxygen_mg := staged_value f.do_mg_na f.do_mg_widget
    dissolved_oxygen_sat := staged_value f.do_sat_na f.do_sat_widget
    hardness := staged_value f.hardness_na f.hardness_widget
    alkalinity := staged_value f.alkalinity_na f.alkalinity_widget
    ph := staged_value f.ph_na f.ph_widget
    temperature := staged_value f.temp_na f.temp_widget
    flow := staged_value f.flow_na f.flow_widget }

/-- `supabase.table(water_quality).select.eq(site).eq(date)` followed by
`response.data[0]`: the first stored row matching the (site, date) key. -/
def fetch_one (store : List WQRecord) (site dateStr : String) : Option WQRecord :=
  (store.filter (fun r => r.site == site && r.date == dateStr)).head?

/-- The record produced by writing a payload at a given id: `insert(data)`
with a database-assigned id, or `update(data).eq(id, i)` which overwrites
every payload column of the row with that id. -/
def applyPayload (p : Payload) (rid : Nat) : WQRecord :=
  { id := rid
    site := p.site
    date := p.date
    dissolved_oxygen_mg := p.dissolved_oxygen_mg
    dissolved_oxygen_sat := p.dissolved_oxygen_sat
    hardness := p.hardness
    alkalinity := p.alkalinity
    ph := p.ph
    temperature := p.temperature
    flow := p.flow
    notes := p.notes
    user_id := p.user_id }

/-- The storage effect of the Confirm Save button: `if existing_id_local:`
updates the row with that id, otherwise inserts a new row.  Python truthiness
makes both None and 0 take the insert branch, which the model keeps. -/
def confirm_save (store : List WQRecord) (payload : Payload)
    (existing_id : Option Nat) (fresh : Nat) : List WQRecord :=
  match existing_id with
  | some i =>
      if i = 0 then store ++ [applyPayload payload fresh]
      else store.map (fun r => if r.id = i then applyPayload payload i else r)
  | none => store ++ [applyPayload payload fresh]

/-- A row of the `pending_admins` table. -/
structure PendingAdminRow where
  email : String
  status : String
deriving DecidableEq, Repr

/-- `is_admin` from app.py: configured admin email short-circuits to true;
otherwise the `pending_admins` table is queried for a row with this email and
status approved, any exception being swallowed to a non-admin answer. -/
def is_admin (adminEmail : String) (table_fetch : Except String (List PendingAdminRow))
    (email : String) : Bool :=
  if email == adminEmail then true
  else
    match table_fetch with
    | .ok rows => !(rows.filter (fun r => r.email == email && r.status == "approved")).isEmpty
    | .error _ => false

/-- A row of the `sites` table (the two columns `get_sites` reads). -/
structure SiteRow where
  full_name : String
  short_name : String
deriving DecidableEq, Repr

/-- The hardcoded fallback list in `get_sites`. -/
def default_sites : List (String × String) :=
  [("Blue River at Silverthorne Pavilion- 196", "Blue River"),
   ("Snake River KSS- 52", "Snake River"),
   ("Swan River Reach A- 1007", "Swan River")]

/-- `get_sites`: database rows mapped to (full_name, short_name) pairs when
the fetch succeeds with data; the hardcoded list when the result is empty or
the fetch raises. -/
def get_sites (fetch : Except String (List SiteRow)) : List (String × String) :=
  match fetch with
  | .ok rows =>
      if rows.isEmpty then default_sites
      else rows.map (fun s => (s.full_name, s.short_name))
  | .error _ => default_sites

/-- The legacy-token entries added by `site_mapping.update` in app.py. -/
def legacy_map : List (String × String) :=
  [("Site 1", "Blue River"),
   ("Site 2", "Snake River"),
   ("Site 3", "Swan River")]

/-- Display-name resolution in `view_data` and `edit_data`: a dict built from
the site pairs then updated with the legacy tokens (later insertions win,
hence the reversed lookup), falling back to the raw stored value when the
key is unmapped (`fillna` with the original site string). -/
def resolve_display_name (sites : List (String × String)) (stored : String) : String :=
  match ((sites ++ legacy_map).reverse).lookup stored with
  | some short => short
  | none => stored

/-- The keys the fallback configuration maps: the three full names and the
three legacy tokens. -/
def known_site_keys : List String :=
  ["Blue River at Silverthorne Pavilion- 196", "Snake River KSS- 52",
   "Swan River Reach A- 1007", "Site 1", "Site 2", "Site 3"]

/-- `zero_not_meaningful` in `view_data`: the parameters whose stored zeros
are converted to NaN before plotting. -/
def zero_not_meaningful : Param → Bool
  | .do_mg => true
  | .do_sat => true
  | .hardness => true
  | .alkalinity => true
  | .ph => true
  | .temperature => false
  | .flow => false

/-- The value the chart renders for one record and one parameter: nulls are
gaps, and a stored 0 becomes a gap exactly when the parameter is in the
`zero_not_meaningful` list. -/
def rendered_value (p : Param) (r : WQRecord) : Option Rat :=
  if zero_not_meaningful p then
    match record_field r p with
    | some v => if v = 0 then none else some v
    | none => none
  else record_field r p

/-- The staged save held in `st.session_state .pending_wq_save`. -/
structure Pending where
  data : Payload
  existing_id : Option Nat
  selected_site : String
  selected_date : String
deriving DecidableEq, Repr

/-- The slice of the per-user session state the embedded flows touch. -/
structure Session where
  pending_wq_save : Option Pending
  data_submitted : Bool
  success_message : Option String
  clicked_id : Option Nat
  clicked_site : Option String
  clicked_date : Option String
deriving DecidableEq, Repr

/-- The Cancel button of the confirmation step:
`st.session_state.pop(pending_wq_save, None)` and nothing else. -/
def cancel_click (s : Session) (store : List WQRecord) : Session × List WQRecord :=
  ({ s with pending_wq_save := none }, store)

/-- The Confirm Save button.  `storage_ok` models whether the remote
insert/update call raises: when it raises, the except handler only shows an
error, so the session (the staged payload included) and the store are left as
they were; on success the store is written, the success flag and message are
set, and the staged payload is popped. -/
def confirm_click (s : Session) (store : List WQRecord) (fresh : Nat)
    (storage_ok : Bool) : Session × List WQRecord :=
  match s.pending_wq_save with
  | none => (s, store)
  | some pending =>
      if storage_ok then
        ({ s with
            pending_wq_save := none
            data_submitted := true
            success_message := some (match pending.existing_id with
              | some i =>
                  if i = 0 then "Data saved successfully!"
                  else "Data updated successfully!"
              | none => "Data saved successfully!") },
         confirm_save store pending.data pending.existing_id fresh)
      else (s, store)

/-- The Delete button of the admin list view: with the per-id confirmation
flag armed, the storage delete is issued (the flag is left as it was); with
the flag unarmed, the click only arms the flag.  The armed flags are the set
of ids whose `confirm_delete_{id}` session key is True. -/
def delete_click (flags : List Nat) (store : List WQRecord) (rid : Nat) :
    List Nat × List WQRecord :=
  if flags.contains rid then
    (flags, store.filter (fun r => r.id != rid))
  else
    (rid :: flags, store)

/-- One fetched row as the chart-click handler sees it: the stored site
string, the mapped display name (`site_abbrev`), the date and the id.  The
list order is the fetch order (`order(date)`). -/
structure ChartRow where
  id : Nat
  site : String
  site_abbrev : String
  date : String
deriving DecidableEq, Repr

/-- pandas `Series.unique()`: values in order of first appearance. -/
def uniqueFirst (l : List String) : List String :=
  l.foldl (fun acc x => if acc.contains x then acc else acc ++ [x]) []

/-- The click handler in `view_data`: the curve number indexes the unique
site display names of `df_processed` (first-appearance order), the point
index indexes that site rows of `df_processed` (all fetched rows for the
site, not deduplicated); an out-of-range index yields no selection. -/
def resolve_click (rows : List ChartRow) (curve ptIdx : Nat) : Option ChartRow :=
  match (uniqueFirst (rows.map (fun r => r.site_abbrev)))[curve]? with
  | none => none
  | some ab => (rows.filter (fun r => r.site_abbrev == ab))[ptIdx]?

/-- Session effect of a chart click: on a resolved row, `clicked_site`,
`clicked_date` and `clicked_id` are stored; otherwise nothing changes. -/
def handle_click (s : Session) (rows : List ChartRow) (curve ptIdx : Nat) : Session :=
  match resolve_click rows curve ptIdx with
  | none => s
  | some row =>
      { s with
          clicked_id := some row.id
          clicked_site := some row.site
          clicked_date := some row.date }

/-- Per-site deduplication to one point per (site, date) pair, first
encountered value kept — the shape of the series the chart actually plots
(the `groupby` with `first` aggregation), stated here so the click
resolution can be compared against a point position in this series. -/
def dedupSiteDate (rows : List ChartRow) : List ChartRow :=
  rows.foldl
    (fun acc r =>
      if acc.any (fun x => x.site == r.site && x.date == r.date) then acc
      else acc ++ [r]) []

/-- Click resolution as the specification describes it: the point index taken
as a position within the per-site time-ordered, deduplicated series. -/
def resolve_click_dedup (rows : List ChartRow) (curve ptIdx : Nat) : Option ChartRow :=
  match (uniqueFirst (rows.map (fun r => r.site_abbrev)))[curve]? with
  | none => none
  | some ab => (dedupSiteDate (rows.filter (fun r => r.site_abbrev == ab)))[ptIdx]?

/-- A concrete staged payload used by the witnesses. -/
def examplePayload : Payload :=
  { site := "Site 1"
    date := "2024-06-01"
    user_id := "user-7"
    notes := none
    dissolved_oxygen_mg := some 8
    dissolved_oxygen_sat := some 92
    hardness := none
    alkalinity := some 40
    ph := some 7
    temperature := some 12
    flow := some 55 }

/-- A concrete stored record with id 1 at (Site 1, 2024-06-01). -/
def rec1 : WQRecord :=
  { id := 1
    site := "Site 1"
    date := "2024-06-01"
    dissolved_oxygen_mg := some 9
    dissolved_oxygen_sat := some 95
    hardness := some 120
    alkalinity := some 38
    ph := some 8
    temperature := some 10
    flow := some 60
    notes := some "baseline"
    user_id := "user-7" }

/-- A one-record store used by the witnesses. -/
def exStore : List WQRecord := [rec1]

/-- A record whose ph, temperature and flow are all stored as exactly 0. -/
def zeroRecord : WQRecord :=
  { id := 2
    site := "Site 1"
    date := "2024-06-02"
    dissolved_oxygen_mg := some 8
    dissolved_oxygen_sat := none
    hardness := none
    alkalinity := none
    ph := some 0
    temperature := some 0
    flow := some 0
    notes := none
    user_id := "user-7" }

/-- A concrete form state: ph marked N/A, flow entered as 55. -/
def exampleForm : FormInput :=
  { do_mg_widget := 8
    do_mg_na := false
    do_sat_widget := 92
    do_sat_na := false
    hardness_widget := 0
    hardness_na := true
    alkalinity_widget := 40
    alkalinity_na := false
    ph_widget := 7
    ph_na := true
    temp_widget := 12
    temp_na := false
    flow_widget := 55
    flow_na := false
    notes := "" }

/-- The fresh session of a user who has staged nothing. -/
def emptySession : Session :=
  { pending_wq_save := none
    data_submitted := false
    success_message := none
    clicked_id := none
    clicked_site := none
    clicked_date := none }

/-- A concrete staged save awaiting confirmation. -/
def examplePending : Pending :=
  { data := examplePayload
    existing_id := none
    selected_site := "Blue River at Silverthorne Pavilion- 196"
    selected_date := "06/01/2024" }

/-- A session in the pending-confirmation state. -/
def pendingSession : Session :=
  { emptySession with pending_wq_save := some examplePending }

/-- Two fetched rows duplicating the (site, date) key, distinct ids. -/
def dupRows : List ChartRow :=
  [{ id := 1, site := "Site 1", site_abbrev := "Blue River", date := "2024-06-01" },
   { id := 2, site := "Site 1", site_abbrev := "Blue River", date := "2024-06-01" }]

/-- A single fetched row. -/
def oneRowList : List ChartRow :=
  [{ id := 1, site := "Site 1", site_abbrev := "Blue River", date := "2024-06-01" }]

/-- C1: for every numeric field of the entry form with an N/A toggle, a
checked toggle at submission stages null for that field regardless of the
numeric widget value, and an unchecked toggle stages exactly the widget
value. -/
theorem na_toggle_staging (selected_site dateStr uid : String)
    (f : FormInput) (p : Param) :
    (form_na f p = true →
       payload_field (build_payload selected_site dateStr uid f) p = none) ∧
    (form_na f p = false →
       payload_field (build_payload selected_site dateStr uid f) p
         = some (form_widget f p)) := by
  cases p <;> constructor <;> intro h <;>
    simp [form_na] at h <;>
    simp [payload_field, build_payload, staged_value, form_widget, h]

/-- C1 witness: on a concrete form with the ph toggle checked and the flow
toggle unchecked, the staged payload has null ph and flow exactly 55. -/
theorem na_toggle_staging_witness :
    payload_field (build_payload "Blue River at Silverthorne Pavilion- 196"
      "2024-06-01" "user-7" exampleForm) Param.ph = none ∧
    payload_field (build_payload "Blue River at Silverthorne Pavilion- 196"
      "2024-06-01" "user-7" exampleForm) Param.flow = some 55 :=
  ⟨(na_toggle_staging "Blue River at Silverthorne Pavilion- 196"
      "2024-06-01" "user-7" exampleForm Param.ph).1 rfl,
   (na_toggle_staging "Blue River at Silverthorne Pavilion- 196"
      "2024-06-01" "user-7" exampleForm Param.flow).2 rfl⟩

/-- C2: when the (site, date) lookup finds no record, confirming performs
exactly one insert (the store grows by the one new row); when it finds a
record (with a database-assigned positive id), confirming updates the row
with that id in place and creates no second row. -/
theorem submit_insert_or_update (store : List WQRecord) (payload : Payload)
    (site dateStr : String) (fresh : Nat) :
    (fetch_one store site dateStr = none →
       confirm_save store payload
           ((fetch_one store site dateStr).map (fun r => r.id)) fresh
         = store ++ [applyPayload payload fresh]
       ∧ (confirm_save store payload
           ((fetch_one store site dateStr).map (fun r => r.id)) fresh).length
         = store.length + 1) ∧
    (∀ r, fetch_one store site dateStr = some r → 0 < r.id →
       confirm_save store payload
           ((fetch_one store site dateStr).map (fun r => r.id)) fresh
         = store.map (fun x => if x.id = r.id then applyPayload payload r.id else x)
       ∧ (confirm_save store payload
           ((fetch_one store site dateStr).map (fun r => r.id)) fresh).length
         = store.length) := by
  constructor
  · intro h
    simp [h, confirm_save]
  · intro r h hpos
    have hne : r.id ≠ 0 := Nat.pos_iff_ne_zero.mp hpos
    constructor
    · simp [h, confirm_save, hne]
    · simp [h, confirm_save, hne]

/-- C2 witness: on the empty store the confirmed save appends the one new
row; on a store holding the record at (Site 1, 2024-06-01) with id 1, the
confirmed save rewrites that row and keeps the store length at 1. -/
theorem submit_insert_or_update_witness :
    (confirm_save [] examplePayload
        ((fetch_one [] "Site 1" "2024-06-01").map (fun r => r.id)) 5
      = [] ++ [applyPayload examplePayload 5]) ∧
    (confirm_save exStore examplePayload
        ((fetch_one exStore "Site 1" "2024-06-01").map (fun r => r.id)) 5
      = exStore.map (fun x =>
          if x.id = rec1.id then applyPayload examplePayload rec1.id else x)) ∧
    (confirm_save exStore examplePayload
        ((fetch_one exStore "Site 1" "2024-06-01").map (fun r => r.id)) 5).length
      = exStore.length :=
  ⟨((submit_insert_or_update [] examplePayload "Site 1" "2024-06-01" 5).1 rfl).1,
   ((submit_insert_or_update exStore examplePayload "Site 1" "2024-06-01" 5).2
      rec1 rfl (by decide)).1,
   ((submit_insert_or_update exStore examplePayload "Site 1" "2024-06-01" 5).2
      rec1 rfl (by decide)).2⟩

/-- C3 counterexample: temperature is not flow, yet a record whose
temperature is stored as exactly 0 has that 0 rendered as a measured value,
so flow is not the only parameter that retains a stored 0. -/
theorem zero_gap_cex :
    rendered_value Param.temperature zeroRecord = some 0 ∧
    Param.temperature ≠ Param.flow := by
  constructor
  · rfl
  · intro h
    cases h

/-- C3 amended: the zero-to-gap conversion applies exactly to the five
chemistry parameters; for temperature and flow (the two parameters outside
that list) a stored 0 is retained and rendered, and a non-zero stored value
is always rendered unchanged. -/
theorem zero_gap_policy (r : WQRecord) (p : Param) :
    (zero_not_meaningful p = true ↔
       (p = Param.do_mg ∨ p = Param.do_sat ∨ p = Param.hardness ∨
        p = Param.alkalinity ∨ p = Param.ph)) ∧
    (zero_not_meaningful p = true → record_field r p = some 0 →
       rendered_value p r = none) ∧
    (zero_not_meaningful p = false →
       rendered_value p r = record_field r p) ∧
    (∀ v : Rat, record_field r p = some v → v ≠ 0 →
       rendered_value p r = some v) := by
  refine ⟨?_, ?_, ?_, ?_⟩
  · cases p <;> simp [zero_not_meaningful]
  · intro hz h
    simp [rendered_value, hz, h]
  · intro hz
    simp [rendered_value, hz]
  · intro v hv hne
    cases hz : zero_not_meaningful p <;>
      simp [rendered_value, hz, hv, hne]

/-- C3 witness: on a record storing 0 for ph, temperature and flow, the chart
renders a gap for ph and renders the measured 0 for flow. -/
theorem zero_gap_policy_witness :
    rendered_value Param.ph zeroRecord = none ∧
    rendered_value Param.flow zeroRecord = some 0 :=
  ⟨(zero_gap_policy zeroRecord Param.ph).2.1 rfl rfl,
   (zero_gap_policy zeroRecord Param.flow).2.2.1 rfl⟩

/-- C4: is_admin grants admin to the configured address, and to an email
holding an approved row of pending_admins; a denied row grants nothing (an
email whose rows are all non-approved is refused), and a failed table lookup
yields false rather than an exception. -/
theorem is_admin_policy (adminEmail email : String)
    (rows : List PendingAdminRow) :
    (email = adminEmail →
       ∀ t : Except String (List PendingAdminRow),
         is_admin adminEmail t email = true) ∧
    (∀ r, r ∈ rows → r.email = email → r.status = "approved" →
       is_admin adminEmail (Except.ok rows) email = true) ∧
    (email ≠ adminEmail →
       (∀ r, r ∈ rows → r.email = email → r.status ≠ "approved") →
       is_admin adminEmail (Except.ok rows) email = false) ∧
    (email ≠ adminEmail →
       ∀ msg : String, is_admin adminEmail (Except.error msg) email = false) := by
  refine ⟨?_, ?_, ?_, ?_⟩
  · intro h t
    simp [is_admin, h]
  · intro r hr he hs
    by_cases hadm : email = adminEmail
    · simp [is_admin, hadm]
    · have hmem : r ∈ rows.filter (fun x => x.email == email && x.status == "approved") := by
        refine List.mem_filter.mpr ⟨hr, ?_⟩
        simp [he, hs]
      have hne : rows.filter (fun x => x.email == email && x.status == "approved") ≠ [] :=
        List.ne_nil_of_mem hmem
      simp [is_admin, hadm, List.isEmpty_iff, hne]
  · intro hadm hall
    have hnil : rows.filter (fun x => x.email == email && x.status == "approved") = [] := by
      rw [List.filter_eq_nil_iff]
      intro r hr
      simp only [Bool.and_eq_true, beq_iff_eq, not_and]
      intro he hs
      exact hall r hr he hs
    simp [is_admin, hadm, hnil]
  · intro hadm msg
    simp [is_admin, hadm]

/-- C4 witness: with admin address admin at example.org, the approved email
is admin, the denied-only email is not, and a failed lookup for the denied
email answers false. -/
theorem is_admin_policy_witness :
    is_admin "admin@example.org"
      (Except.ok [⟨"alice@example.org", "approved"⟩,
                  ⟨"bob@example.org", "denied"⟩]) "alice@example.org" = true ∧
    is_admin "admin@example.org"
      (Except.ok [⟨"alice@example.org", "approved"⟩,
                  ⟨"bob@example.org", "denied"⟩]) "bob@example.org" = false ∧
    is_admin "admin@example.org" (Except.error "relation does not exist")
      "bob@example.org" = false :=
  ⟨(is_admin_policy "admin@example.org" "alice@example.org"
      [⟨"alice@example.org", "approved"⟩, ⟨"bob@example.org", "denied"⟩]).2.1
      ⟨"alice@example.org", "approved"⟩ (by simp) rfl rfl,
   (is_admin_policy "admin@example.org" "bob@example.org"
      [⟨"alice@example.org", "approved"⟩, ⟨"bob@example.org", "denied"⟩]).2.2.1
      (by decide) (by decide),
   (is_admin_policy "admin@example.org" "bob@example.org"
      [⟨"alice@example.org", "approved"⟩, ⟨"bob@example.org", "denied"⟩]).2.2.2
      (by decide) "relation does not exist"⟩

/-- C9: whenever the sites-table fetch fails, get_sites returns the three
hardcoded (full name, short name) pairs for Blue River, Snake River and Swan
River, in that order, without raising. -/
theorem get_sites_fallback (msg : String) :
    get_sites (Except.error msg) =
      [("Blue River at Silverthorne Pavilion- 196", "Blue River"),
       ("Snake River KSS- 52", "Snake River"),
       ("Swan River Reach A- 1007", "Swan River")] := rfl

/-- Helper: an association-list lookup misses when no key equals the query. -/
theorem lookup_none_of_keys_ne (k : String) :
    ∀ pairs : List (String × String), (∀ p ∈ pairs, p.1 ≠ k) →
      pairs.lookup k = none := by
  intro pairs h
  induction pairs with
  | nil => rfl
  | cons a tl ih =>
      obtain ⟨k1, v1⟩ := a
      have hk : k1 ≠ k := h (k1, v1) (List.mem_cons_self _ _)
      have hbeq : (k == k1) = false :=
        beq_eq_false_iff_ne.mpr (fun he => hk he.symm)
      simp only [List.lookup, hbeq]
      exact ih (fun p hp => h p (List.mem_cons_of_mem _ hp))

/-- C5: with the fallback site configuration, each legacy token and its
corresponding full site name resolve to the same short name (the legacy
tokens resolve so for every sites list, since the legacy entries override
the dict), and an unrecognized stored value resolves to itself unchanged. -/
theorem resolve_display_name_mapping :
    (∀ sites : List (String × String),
       resolve_display_name sites "Site 1" = "Blue River" ∧
       resolve_display_name sites "Site 2" = "Snake River" ∧
       resolve_display_name sites "Site 3" = "Swan River") ∧
    (resolve_display_name (get_sites (Except.error "missing"))
       "Blue River at Silverthorne Pavilion- 196" = "Blue River" ∧
     resolve_display_name (get_sites (Except.error "missing"))
       "Snake River KSS- 52" = "Snake River" ∧
     resolve_display_name (get_sites (Except.error "missing"))
       "Swan River Reach A- 1007" = "Swan River") ∧
    (∀ s : String, s ∉ known_site_keys →
       resolve_display_name (get_sites (Except.error "missing")) s = s) := by
  refine ⟨?_, ⟨rfl, rfl, rfl⟩, ?_⟩
  · intro sites
    refine ⟨?_, ?_, ?_⟩ <;>
      simp [resolve_display_name, List.reverse_append, legacy_map, List.lookup]
  · intro s hs
    have hnone :
        (legacy_map.reverse ++ (get_sites (Except.error "missing")).reverse).lookup s
          = none := by
      apply lookup_none_of_keys_ne
      intro p hp he
      refine hs ?_
      simp [get_sites, default_sites, legacy_map] at hp
      rcases hp with h1 | h1 | h1 | h1 | h1 | h1 <;>
        rw [h1] at he <;> rw [← he] <;> simp [known_site_keys]
    simp [resolve_display_name, List.reverse_append, hnone]

/-- C5 witness: a stored value outside the mapped keys is shown unchanged. -/
theorem resolve_display_name_mapping_witness :
    resolve_display_name (get_sites (Except.error "missing"))
      "Tenmile Creek" = "Tenmile Creek" :=
  resolve_display_name_mapping.2.2 "Tenmile Creek" (by decide)

/-- C6: with a staged payload awaiting confirmation, the cancel action leaves
the record store unchanged, clears the staged payload, and sets no success
flag. -/
theorem cancel_click_frame (s : Session) (store : List WQRecord) (p : Pending)
    (_h : s.pending_wq_save = some p) :
    (cancel_click s store).2 = store ∧
    (cancel_click s store).1.pending_wq_save = none ∧
    (cancel_click s store).1.data_submitted = s.data_submitted := by
  exact ⟨rfl, rfl, rfl⟩

/-- C6 witness: cancelling a concrete staged save on the empty store. -/
theorem cancel_click_frame_witness :
    (cancel_click pendingSession []).2 = ([] : List WQRecord) ∧
    (cancel_click pendingSession []).1.pending_wq_save = none ∧
    (cancel_click pendingSession []).1.data_submitted
      = pendingSession.data_submitted :=
  cancel_click_frame pendingSession [] examplePending rfl

/-- C7: a delete action with the confirmation flag unarmed performs no
storage mutation and only arms the per-id flag; the storage delete for an id
is issued exactly on a delete action taken while that flag is armed, and two
consecutive delete actions on the same id starting unarmed remove the
record. -/
theorem delete_two_click (flags : List Nat) (store : List WQRecord) (rid : Nat) :
    (flags.contains rid = false →
       (delete_click flags store rid).2 = store ∧
       (delete_click flags store rid).1.contains rid = true) ∧
    (flags.contains rid = true →
       (delete_click flags store rid).2
         = store.filter (fun r => r.id != rid)) ∧
    (flags.contains rid = false →
       (delete_click (delete_click flags store rid).1
           (delete_click flags store rid).2 rid).2
         = store.filter (fun r => r.id != rid)) := by
  refine ⟨?_, ?_, ?_⟩
  · intro h
    have h2 : rid ∉ flags := by simpa using h
    constructor
    · simp [delete_click, h2]
    · simp [delete_click, h2]
  · intro h
    have h2 : rid ∈ flags := by simpa using h
    simp [delete_click, h2]
  · intro h
    have h2 : rid ∉ flags := by simpa using h
    simp [delete_click, h2]

/-- C7 witness: on a one-record store, the first delete action on id 1 leaves
the store intact and arms the flag, and the second removes the record. -/
theorem delete_two_click_witness :
    ((delete_click [] exStore 1).2 = exStore ∧
     (delete_click [] exStore 1).1.contains 1 = true) ∧
    (delete_click (delete_click [] exStore 1).1
        (delete_click [] exStore 1).2 1).2
      = exStore.filter (fun r => r.id != 1) :=
  ⟨(delete_two_click [] exStore 1).1 rfl,
   (delete_two_click [] exStore 1).2.2 rfl⟩

/-- C10: when the storage call of the confirm step raises, the staged payload
stays in session state, the success flag is untouched and the store is
unchanged, so the confirm can be retried; the staged payload is removed
exactly by a successful commit or an explicit cancel. -/
theorem save_error_retains_pending (s : Session) (store : List WQRecord)
    (fresh : Nat) (p : Pending) (h : s.pending_wq_save = some p) :
    ((confirm_click s store fresh false).1.pending_wq_save = some p ∧
     (confirm_click s store fresh false).1.data_submitted = s.data_submitted ∧
     (confirm_click s store fresh false).2 = store) ∧
    ((confirm_click s store fresh true).1.pending_wq_save = none ∧
     (confirm_click s store fresh true).1.data_submitted = true) ∧
    (cancel_click s store).1.pending_wq_save = none := by
  refine ⟨⟨?_, ?_, ?_⟩, ⟨?_, ?_⟩, rfl⟩ <;> simp [confirm_click, h]

/-- C10 witness: a failing commit of a concrete staged save keeps the staged
payload and leaves the one-record store unchanged; a succeeding one clears
it. -/
theorem save_error_retains_pending_witness :
    ((confirm_click pendingSession exStore 6 false).1.pending_wq_save
       = some examplePending ∧
     (confirm_click pendingSession exStore 6 false).2 = exStore) ∧
    (confirm_click pendingSession exStore 6 true).1.pending_wq_save = none :=
  ⟨⟨(save_error_retains_pending pendingSession exStore 6 examplePending rfl).1.1,
    (save_error_retains_pending pendingSession exStore 6 examplePending rfl).1.2.2⟩,
   (save_error_retains_pending pendingSession exStore 6 examplePending rfl).2.1.1⟩

/-- C8 counterexample: with two stored rows duplicating one (site, date)
key, a click at curve 0 and point index 1 is resolved by the code to the
second duplicate row (id 2) and its id is placed in session state, although
the time-ordered deduplicated series for that site has a single point, so
under the claim the point index would be out of range and the click would be
ignored. -/
theorem chart_click_cex :
    resolve_click dupRows 0 1
      = some { id := 2, site := "Site 1", site_abbrev := "Blue River",
               date := "2024-06-01" } ∧
    resolve_click_dedup dupRows 0 1 = none ∧
    (handle_click emptySession dupRows 0 1).clicked_id = some 2 := by
  refine ⟨rfl, rfl, rfl⟩

/-- C8 amended: an admin chart click is resolved by taking the curve number
as an index into the site display names in order of first appearance and the
point index as a position within that site rows of the fetched, zero-filtered
frame — which is time-ordered but NOT deduplicated by (site, date) — and the
resolved row id is placed into session state; if either index is out of range
the click is silently ignored with no session-state change. -/
theorem chart_click_resolution (s : Session) (rows : List ChartRow)
    (curve ptIdx : Nat) :
    (resolve_click rows curve ptIdx = none →
       handle_click s rows curve ptIdx = s) ∧
    (∀ row, resolve_click rows curve ptIdx = some row →
       (handle_click s rows curve ptIdx).clicked_id = some row.id ∧
       ∃ ab, (uniqueFirst (rows.map (fun r => r.site_abbrev)))[curve]? = some ab ∧
             (rows.filter (fun r => r.site_abbrev == ab))[ptIdx]? = some row) := by
  constructor
  · intro h
    simp [handle_click, h]
  · intro row h
    refine ⟨by simp [handle_click, h], ?_⟩
    unfold resolve_click at h
    rcases h1 : (uniqueFirst (rows.map (fun r => r.site_abbrev)))[curve]? with _ | ab
    · rw [h1] at h
      cases h
    · rw [h1] at h
      exact ⟨ab, h1, h⟩

/-- C8 witness of the amended claim: on a one-row fetch, a click at curve 5
is out of range and changes nothing, and a click at curve 0, point 0 places
id 1 into session state. -/
theorem chart_click_resolution_witness :
    handle_click emptySession oneRowList 5 0 = emptySession ∧
    (handle_click emptySession oneRowList 0 0).clicked_id = some 1 :=
  ⟨(chart_click_resolution emptySession oneRowList 5 0).1 rfl,
   ((chart_click_resolution emptySession oneRowList 0 0).2
      { id := 1, site := "Site 1", site_abbrev := "Blue River",
        date := "2024-06-01" } rfl).1⟩
